import Mathlib

/-!
Verification model of the ttn-esp32 session-management layer
(`TheThingsNetwork` class, header `src/include/TheThingsNetwork.h`).

The repository ships only the public header; the implementation files are
not present.  Every operation below is therefore modelled from the design
specification (credential validation and persistence, the OTAA join state
machine, the transmit/receive cycle, and the channel-plan controller).
External collaborators (the LoRaWAN MAC engine, the hardware MAC address,
non-volatile storage) appear as explicit parameters or as fields of the
device state; contact with the MAC engine is recorded in an operation
trace so that the claims saying an operation never reaches the radio can
be stated as trace preservation.
-/

namespace TTN

/-- Modelled from the spec: the Credential Store validates hex-string
format; a character is acceptable when it is a hexadecimal digit
(0-9, a-f, A-F). -/
def isHexDigit (c : Char) : Bool :=
  ('0' ≤ c && c ≤ '9') || ('a' ≤ c && c ≤ 'f') || ('A' ≤ c && c ≤ 'F')

/-- Numeric value of a hexadecimal digit character. -/
def hexVal (c : Char) : Nat :=
  if '0' ≤ c && c ≤ '9' then c.toNat - '0'.toNat
  else if 'a' ≤ c && c ≤ 'f' then c.toNat - 'a'.toNat + 10
  else c.toNat - 'A'.toNat + 10

/-- Modelled from the spec: decoding of a hex string (as a character
list) into bytes, two characters per byte; fails on an odd number of
characters or on any character that is not a hexadecimal digit. -/
def hexDecodeList : List Char → Option (List Nat)
  | [] => some []
  | [_] => none
  | c1 :: c2 :: rest =>
    if isHexDigit c1 && isHexDigit c2 then
      (hexDecodeList rest).map fun bs => (hexVal c1 * 16 + hexVal c2) :: bs
    else none

/-- Total variant of the pairwise decoder, used to name the value that
a successful decode produces. -/
def hexPairsToNats : List Char → List Nat
  | c1 :: c2 :: rest => (hexVal c1 * 16 + hexVal c2) :: hexPairsToNats rest
  | _ => []

/-- Character for a single hexadecimal digit value (lower case). -/
def hexDigitChar (n : Nat) : Char :=
  if n < 10 then Char.ofNat (Char.toNat '0' + n) else Char.ofNat (Char.toNat 'a' + n - 10)

/-- Hex-encode a byte list, two lower-case digits per byte. -/
def hexEncode (bs : List Nat) : String :=
  ⟨bs.flatMap fun b => [hexDigitChar (b / 16), hexDigitChar (b % 16)]⟩

/-- DeviceCredentials (spec section 3): device EUI, application EUI and
application key as raw byte sequences. -/
structure DeviceCredentials where
  deviceEui : List Nat
  applicationEui : List Nat
  applicationKey : List Nat
  deriving DecidableEq

/-- Modelled from the spec: the invariant on a credential set — all
three fields present and exactly the documented byte length
(8 / 8 / 16 bytes). -/
def DeviceCredentials.valid (c : DeviceCredentials) : Bool :=
  c.deviceEui.length == 8 && c.applicationEui.length == 8 && c.applicationKey.length == 16

/-- JoinState (spec section 3). -/
inductive JoinState where
  | Unprovisioned
  | Provisioned
  | Joining
  | Joined
  deriving DecidableEq

/-- Radio-facing operations of the MAC engine contract that the
error-handling claims constrain: the OTAA handshake, an uplink send, and
the receive-window poll.  A call that must not contact the MAC engine
leaves the trace of these operations unchanged. -/
inductive MacOp where
  | startOTAA (devEui appEui appKey : List Nat)
  | send (payload : List Nat) (port : Nat) (confirmed : Bool)
  | pollRx
  deriving DecidableEq

/-- PendingReceiveMessage (spec section 3): payload bytes and port of a
downlink delivered during a receive window.  The length of the message
is the length of the payload list. -/
structure ReceiveMessage where
  payload : List Nat
  port : Nat
  deriving DecidableEq

/-- State of the single TheThingsNetwork device instance.
`storedCreds` is the Credential Store (non-volatile storage);
`adhocCreds` holds credentials supplied to the three-argument join,
which are kept in memory only and never persisted; `channels` is the
per-channel enabled flag held by the underlying MAC engine;
`messageCallback` is the single registered downlink handler (callbacks
are identified by an abstract numeric identifier); `macTrace` is the
trace of radio-facing MAC-engine operations issued so far. -/
structure DeviceState where
  storedCreds : Option DeviceCredentials
  adhocCreds : Option DeviceCredentials
  joinState : JoinState
  channels : Nat → Bool
  messageCallback : Option Nat
  macTrace : List MacOp

/-- State of a freshly constructed device: nothing provisioned, nothing
joined, all channels disabled, no callback registered, no radio contact. -/
def initialState : DeviceState :=
  { storedCreds := none
    adhocCreds := none
    joinState := JoinState.Unprovisioned
    channels := fun _ => false
    messageCallback := none
    macTrace := [] }

/-- Credential Store `load` (spec section 4.1): absent if never written
or if any field has the wrong length. -/
def load (s : DeviceState) : Option DeviceCredentials :=
  match s.storedCreds with
  | some c => if c.valid then some c else none
  | none => none

/-- Credential Store `isComplete` (spec section 4.1): true iff `load`
would return a fully valid credential set. -/
def credStoreIsComplete (s : DeviceState) : Bool :=
  (load s).isSome

/-- Credential Store `persist` (spec section 4.1): fails if any field
fails length validation; on success all three fields are written
together and the device counts as provisioned. -/
def persist (s : DeviceState) (c : DeviceCredentials) : Bool × DeviceState :=
  if c.valid then
    (true,
      { s with
        storedCreds := some c
        joinState :=
          if s.joinState = JoinState.Unprovisioned then JoinState.Provisioned
          else s.joinState })
  else (false, s)

/-- Decode a hex string that must have exactly `nChars` characters. -/
def decodeHexField (s : String) (nChars : Nat) : Option (List Nat) :=
  if s.length = nChars then hexDecodeList s.data else none

/-- Decode a 16-character hex string into an 8-byte EUI. -/
def decodeEui (s : String) : Option (List Nat) :=
  decodeHexField s 16

/-- Decode a 32-character hex string into a 16-byte key. -/
def decodeKey (s : String) : Option (List Nat) :=
  decodeHexField s 32

/-- Boolean validity of a 16-character hex EUI string. -/
def validEuiString (s : String) : Bool :=
  s.length == 16 && s.data.all isHexDigit

/-- Boolean validity of a 32-character hex key string. -/
def validKeyString (s : String) : Bool :=
  s.length == 32 && s.data.all isHexDigit

/-- Modelled from the spec: `provision(devEui, appEui, appKey)` decodes
each hex string to fixed-length bytes, rejects with `false` if any
string has the wrong length or contains non-hex characters, and on
success persists via the Credential Store and returns `true`
(header lines 90-104; the implementation file is not in the repo). -/
def provision (s : DeviceState) (devEui appEui appKey : String) : Bool × DeviceState :=
  match decodeEui devEui, decodeEui appEui, decodeKey appKey with
  | some d, some a, some k => persist s ⟨d, a, k⟩
  | _, _, _ => (false, s)

/-- Modelled from the spec: the device EUI derived from the 6-byte
hardware MAC address by inserting FF FE between its 3rd and 4th bytes. -/
def euiFromMac (mac : List Nat) : List Nat :=
  mac.take 3 ++ [0xff, 0xfe] ++ mac.drop 3

/-- Modelled from the spec: `provisionWithMAC(appEui, appKey)` derives
the 8-byte device EUI from the hardware MAC address (passed explicitly
here, since the hardware is an external collaborator) and then behaves
as `provision` (header lines 106-129). -/
def provisionWithMAC (s : DeviceState) (mac : List Nat) (appEui appKey : String) :
    Bool × DeviceState :=
  match decodeEui appEui, decodeKey appKey with
  | some a, some k => persist s ⟨euiFromMac mac, a, k⟩
  | _, _ => (false, s)

/-- Final outcome of the OTAA handshake as reported by the MAC engine
(which owns timeout and retry policy; this layer only surfaces the
final result). -/
inductive MacJoinOutcome where
  | success
  | failure
  deriving DecidableEq

/-- Modelled from the spec: the internal shared helper `joinCore`
(header line 311) that both join entry points use once valid in-memory
credentials exist.  It transitions Provisioned to Joining, issues the
blocking OTAA handshake to the MAC engine, and ends at Joined on
success or back at Provisioned on failure. -/
def joinCore (s : DeviceState) (c : DeviceCredentials) (outcome : MacJoinOutcome) :
    Bool × DeviceState :=
  let s1 : DeviceState :=
    { s with
      joinState := JoinState.Joining
      macTrace := s.macTrace ++ [MacOp.startOTAA c.deviceEui c.applicationEui c.applicationKey] }
  match outcome with
  | MacJoinOutcome.success => (true, { s1 with joinState := JoinState.Joined })
  | MacJoinOutcome.failure => (false, { s1 with joinState := JoinState.Provisioned })

/-- Modelled from the spec: the no-argument `join()` (header lines
148-159).  If the device is already Joined it succeeds trivially as a
no-op; if the Credential Store is incomplete it fails immediately
without contacting the MAC engine; otherwise it runs the shared
handshake helper on the stored credentials. -/
def join (s : DeviceState) (outcome : MacJoinOutcome) : Bool × DeviceState :=
  if s.joinState = JoinState.Joined then (true, s)
  else
    match load s with
    | none => (false, s)
    | some c => joinCore s c outcome

/-- Modelled from the spec: the three-argument
`join(devEui, appEui, appKey)` (header lines 161-174).  It validates and
decodes exactly as `provision`, rejecting malformed input without
blocking, keeps the credentials in memory only (never persisting them),
and then behaves as the no-argument `join()`. -/
def joinWithKeys (s : DeviceState) (devEui appEui appKey : String)
    (outcome : MacJoinOutcome) : Bool × DeviceState :=
  match decodeEui devEui, decodeEui appEui, decodeKey appKey with
  | some d, some a, some k =>
    let c : DeviceCredentials := ⟨d, a, k⟩
    let s1 : DeviceState := { s with adhocCreds := some c }
    if s1.joinState = JoinState.Joined then (true, s1) else joinCore s1 c outcome
  | _, _, _ => (false, s)

/-- `isProvisioned` (header lines 209-216): true when the credentials
are stored in non-volatile storage, complete and of the correct size,
or were provided by a call to the three-argument join. -/
def isProvisioned (s : DeviceState) : Bool :=
  credStoreIsComplete s ||
    (match s.adhocCreds with
     | some c => c.valid
     | none => false)

/-- Modelled from the spec: `waitForProvisioning` (header lines 138-146)
blocks until the device is provisioned and returns immediately, without
blocking, exactly when the device already is (stored data, a prior
`provision` call, or a prior three-argument join).  Blocking itself is
not shallow-embeddable; this predicate states when the call returns
immediately. -/
def waitForProvisioningReturnsImmediately (s : DeviceState) : Bool :=
  isProvisioned s

/-- Response codes (header lines 26-35). -/
inductive TTNResponseCode where
  | kTTNErrorTransmissionFailed
  | kTTNErrorUnexpected
  | kTTNSuccessfulTransmission
  | kTTNSuccessfulReceive
  deriving DecidableEq

/-- Numeric values of the response codes as declared in the header. -/
def TTNResponseCode.toInt : TTNResponseCode → Int
  | TTNResponseCode.kTTNErrorTransmissionFailed => -1
  | TTNResponseCode.kTTNErrorUnexpected => -10
  | TTNResponseCode.kTTNSuccessfulTransmission => 1
  | TTNResponseCode.kTTNSuccessfulReceive => 2

/-- Outcome of one uplink/receive-window cycle as reported by the MAC
engine: the uplink was delivered (with an optional downlink arriving in
the receive window), the send failed at radio/duty-cycle level, or the
engine hit an internal error. -/
inductive MacSendOutcome where
  | delivered (downlink : Option ReceiveMessage)
  | sendFailed
  | engineError
  deriving DecidableEq

/-- Downlink dispatch: the invocations of the registered callback for
one receive window, as (callback identifier, message) pairs in order.
With no callback registered the message is silently dropped. -/
def dispatchDownlink (cb : Option Nat) (downlink : Option ReceiveMessage) :
    List (Nat × ReceiveMessage) :=
  match cb, downlink with
  | some f, some m => [(f, m)]
  | _, _ => []

/-- Modelled from the spec: `transmitMessage` (header lines 176-191).
Returns the response code, the list of callback invocations performed
synchronously during the call (before it returns control to the
caller), and the new state.  If the device is not Joined it fails with
the unexpected-error code without contacting the MAC engine. -/
def transmitMessage (s : DeviceState) (outcome : MacSendOutcome)
    (payload : List Nat) (port : Nat) (confirm : Bool) :
    TTNResponseCode × List (Nat × ReceiveMessage) × DeviceState :=
  if s.joinState = JoinState.Joined then
    let s1 : DeviceState := { s with macTrace := s.macTrace ++ [MacOp.send payload port confirm] }
    match outcome with
    | MacSendOutcome.delivered none =>
      (TTNResponseCode.kTTNSuccessfulTransmission, [], s1)
    | MacSendOutcome.delivered (some m) =>
      (TTNResponseCode.kTTNSuccessfulReceive, dispatchDownlink s.messageCallback (some m), s1)
    | MacSendOutcome.sendFailed =>
      (TTNResponseCode.kTTNErrorTransmissionFailed, [], s1)
    | MacSendOutcome.engineError =>
      (TTNResponseCode.kTTNErrorUnexpected, [], s1)
  else (TTNResponseCode.kTTNErrorUnexpected, [], s)

/-- Modelled from the spec: `poll` opens a receive window without an
application payload, with the same blocking/callback contract as
`transmitMessage`. -/
def poll (s : DeviceState) (outcome : MacSendOutcome) :
    TTNResponseCode × List (Nat × ReceiveMessage) × DeviceState :=
  if s.joinState = JoinState.Joined then
    let s1 : DeviceState := { s with macTrace := s.macTrace ++ [MacOp.pollRx] }
    match outcome with
    | MacSendOutcome.delivered none =>
      (TTNResponseCode.kTTNSuccessfulTransmission, [], s1)
    | MacSendOutcome.delivered (some m) =>
      (TTNResponseCode.kTTNSuccessfulReceive, dispatchDownlink s.messageCallback (some m), s1)
    | MacSendOutcome.sendFailed =>
      (TTNResponseCode.kTTNErrorTransmissionFailed, [], s1)
    | MacSendOutcome.engineError =>
      (TTNResponseCode.kTTNErrorUnexpected, [], s1)
  else (TTNResponseCode.kTTNErrorUnexpected, [], s)

/-- `onMessage` (header lines 193-207): registers or replaces the single
downlink handler. -/
def onMessage (s : DeviceState) (callback : Nat) : DeviceState :=
  { s with messageCallback := some callback }

/-- Modelled from the spec: `enableChannel` (header lines 258-271).
The return value reports only the edge: true exactly when the channel
state actually flipped from disabled to enabled. -/
def enableChannel (s : DeviceState) (channel : Nat) : Bool × DeviceState :=
  (s.channels channel == false,
    { s with channels := fun ch => if ch = channel then true else s.channels ch })

/-- Modelled from the spec: `disableChannel` (header lines 229-242).
The return value reports only the edge: true exactly when the channel
state actually flipped from enabled to disabled. -/
def disableChannel (s : DeviceState) (channel : Nat) : Bool × DeviceState :=
  (s.channels channel == true,
    { s with channels := fun ch => if ch = channel then false else s.channels ch })

/-- The 8 channels of a sub-band: a consecutive group of 8. -/
def subBandChannels (band : Nat) : List Nat :=
  (List.range 8).map fun i => 8 * band + i

/-- Modelled from the spec: `enableSubBand` (header lines 244-256)
enables the consecutive group of 8 channels and returns true when at
least one channel in the band changed state. -/
def enableSubBand (s : DeviceState) (band : Nat) : Bool × DeviceState :=
  ((subBandChannels band).any fun ch => s.channels ch == false,
    { s with channels := fun ch => if ch / 8 = band then true else s.channels ch })

/-- Modelled from the spec: `disableSubBand` (header lines 273-286)
disables the consecutive group of 8 channels and returns true when at
least one channel in the band changed state. -/
def disableSubBand (s : DeviceState) (band : Nat) : Bool × DeviceState :=
  ((subBandChannels band).any fun ch => s.channels ch == true,
    { s with channels := fun ch => if ch / 8 = band then false else s.channels ch })

/-- Modelled from the spec: `selectSubBand` (header lines 288-303),
performed as disable-all-sub-bands followed by enable-one, leaving
exactly the 8 channels of the selected band enabled. -/
def selectSubBand (s : DeviceState) (band : Nat) : Bool × DeviceState :=
  enableSubBand { s with channels := fun _ => false } band

/-! ### Lemmas about hex decoding -/

theorem String_length_eq_data_length (s : String) : s.length = s.data.length := rfl

theorem hexDecodeList_ok : ∀ l : List Char, l.all isHexDigit = true → l.length % 2 = 0 →
    hexDecodeList l = some (hexPairsToNats l)
  | [] => by intro _ _; rfl
  | [c] => by intro _ h; simp at h
  | c1 :: c2 :: rest => by
    intro hall hlen
    simp only [List.all_cons, Bool.and_eq_true] at hall
    obtain ⟨h1, h2, hrest⟩ := hall
    have hlen2 : rest.length % 2 = 0 := by
      simp only [List.length_cons] at hlen; omega
    have ih := hexDecodeList_ok rest hrest hlen2
    simp [hexDecodeList, hexPairsToNats, h1, h2, ih]

theorem hexDecodeList_bad : ∀ l : List Char, l.all isHexDigit = false →
    hexDecodeList l = none
  | [] => by intro h; simp at h
  | [c] => by intro _; rfl
  | c1 :: c2 :: rest => by
    intro hall
    by_cases h1 : isHexDigit c1 = true
    · by_cases h2 : isHexDigit c2 = true
      · have hrest : rest.all isHexDigit = false := by
          simp only [List.all_cons, h1, h2, Bool.true_and] at hall
          exact hall
        have ih := hexDecodeList_bad rest hrest
        simp [hexDecodeList, h1, h2, ih]
      · have h2f : isHexDigit c2 = false := by simpa using h2
        simp [hexDecodeList, h2f]
    · have h1f : isHexDigit c1 = false := by simpa using h1
      simp [hexDecodeList, h1f]

theorem hexPairsToNats_length : ∀ l : List Char, (hexPairsToNats l).length = l.length / 2
  | [] => rfl
  | [_] => by simp [hexPairsToNats]
  | c1 :: c2 :: rest => by
    have ih := hexPairsToNats_length rest
    simp only [hexPairsToNats, List.length_cons, ih]
    omega

theorem decodeHexField_ok (s : String) (n : Nat) (hlen : s.length = n) (hpar : n % 2 = 0)
    (hhex : s.data.all isHexDigit = true) :
    decodeHexField s n = some (hexPairsToNats s.data) := by
  have hdl : s.data.length % 2 = 0 := by
    rw [← String_length_eq_data_length, hlen]; exact hpar
  simp [decodeHexField, hlen, hexDecodeList_ok s.data hhex hdl]

theorem decodeHexField_none (s : String) (n : Nat)
    (h : (s.length == n && s.data.all isHexDigit) = false) :
    decodeHexField s n = none := by
  by_cases hlen : s.length = n
  · have hhex : s.data.all isHexDigit = false := by
      simp only [hlen, beq_self_eq_true, Bool.true_and] at h
      exact h
    simp [decodeHexField, hlen, hexDecodeList_bad s.data hhex]
  · simp [decodeHexField, hlen]

theorem decodeEui_ok (s : String) (hlen : s.length = 16)
    (hhex : s.data.all isHexDigit = true) :
    decodeEui s = some (hexPairsToNats s.data) :=
  decodeHexField_ok s 16 hlen rfl hhex

theorem decodeKey_ok (s : String) (hlen : s.length = 32)
    (hhex : s.data.all isHexDigit = true) :
    decodeKey s = some (hexPairsToNats s.data) :=
  decodeHexField_ok s 32 hlen rfl hhex

theorem decodeEui_none (s : String) (h : validEuiString s = false) :
    decodeEui s = none :=
  decodeHexField_none s 16 h

theorem decodeKey_none (s : String) (h : validKeyString s = false) :
    decodeKey s = none :=
  decodeHexField_none s 32 h

theorem decodedEui_length (s : String) (hlen : s.length = 16) :
    (hexPairsToNats s.data).length = 8 := by
  rw [hexPairsToNats_length, ← String_length_eq_data_length, hlen]

theorem decodedKey_length (s : String) (hlen : s.length = 32) :
    (hexPairsToNats s.data).length = 16 := by
  rw [hexPairsToNats_length, ← String_length_eq_data_length, hlen]

theorem hexDigitChar_isHex (n : Nat) (h : n < 16) : isHexDigit (hexDigitChar n) = true := by
  have key : ∀ m : Fin 16, isHexDigit (hexDigitChar m.val) = true := by decide
  exact key ⟨n, h⟩

theorem hexVal_hexDigitChar (n : Nat) (h : n < 16) : hexVal (hexDigitChar n) = n := by
  have key : ∀ m : Fin 16, hexVal (hexDigitChar m.val) = m.val := by decide
  exact key ⟨n, h⟩

theorem hexDecode_hexEncode : ∀ bs : List Nat, (∀ b ∈ bs, b < 256) →
    hexDecodeList (hexEncode bs).data = some bs
  | [] => by intro _; rfl
  | b :: rest => by
    intro h
    have hb : b < 256 := h b (by simp)
    have hrest := hexDecode_hexEncode rest fun x hx => h x (by simp [hx])
    have h1 : b / 16 < 16 := by omega
    have h2 : b % 16 < 16 := by omega
    have harith : b / 16 * 16 + b % 16 = b := by omega
    show hexDecodeList
        (hexDigitChar (b / 16) :: hexDigitChar (b % 16) :: (hexEncode rest).data) =
      some (b :: rest)
    simp [hexDecodeList, hexDigitChar_isHex _ h1, hexDigitChar_isHex _ h2,
      hexVal_hexDigitChar _ h1, hexVal_hexDigitChar _ h2, hrest, harith]

theorem hexEncode_data_length : ∀ bs : List Nat, (hexEncode bs).data.length = 2 * bs.length
  | [] => rfl
  | b :: rest => by
    have ih := hexEncode_data_length rest
    show (hexDigitChar (b / 16) :: hexDigitChar (b % 16) :: (hexEncode rest).data).length =
      2 * (rest.length + 1)
    simp only [List.length_cons, ih]
    omega

theorem decodeEui_hexEncode (bs : List Nat) (hlen : bs.length = 8)
    (hlt : ∀ b ∈ bs, b < 256) : decodeEui (hexEncode bs) = some bs := by
  have hl : (hexEncode bs).length = 16 := by
    rw [String_length_eq_data_length, hexEncode_data_length, hlen]
  simp [decodeEui, decodeHexField, hl, hexDecode_hexEncode bs hlt]

theorem decodeEui_of_valid (s : String) (h : validEuiString s = true) :
    decodeEui s = some (hexPairsToNats s.data) := by
  simp only [validEuiString, Bool.and_eq_true, beq_iff_eq] at h
  exact decodeEui_ok s h.1 h.2

theorem decodeKey_of_valid (s : String) (h : validKeyString s = true) :
    decodeKey s = some (hexPairsToNats s.data) := by
  simp only [validKeyString, Bool.and_eq_true, beq_iff_eq] at h
  exact decodeKey_ok s h.1 h.2

/-! ### Claim theorems -/

/-- C1: for every devEui and appEui string of exactly 16 hexadecimal
characters and every appKey string of exactly 32 hexadecimal characters,
`provision` returns true, and a subsequent `load` from the Credential
Store returns exactly the bytes decoded from those three hex strings. -/
theorem provision_valid_roundtrip (s : DeviceState) (devEui appEui appKey : String)
    (hd : devEui.length = 16) (ha : appEui.length = 16) (hk : appKey.length = 32)
    (hdh : devEui.data.all isHexDigit = true)
    (hah : appEui.data.all isHexDigit = true)
    (hkh : appKey.data.all isHexDigit = true) :
    (provision s devEui appEui appKey).1 = true ∧
    load (provision s devEui appEui appKey).2 =
      some ⟨hexPairsToNats devEui.data, hexPairsToNats appEui.data,
        hexPairsToNats appKey.data⟩ := by
  have hde := decodeEui_ok devEui hd hdh
  have hae := decodeEui_ok appEui ha hah
  have hke := decodeKey_ok appKey hk hkh
  have hv : DeviceCredentials.valid
      ⟨hexPairsToNats devEui.data, hexPairsToNats appEui.data,
        hexPairsToNats appKey.data⟩ = true := by
    simp [DeviceCredentials.valid, decodedEui_length devEui hd,
      decodedEui_length appEui ha, decodedKey_length appKey hk]
  simp [provision, hde, hae, hke, persist, hv, load]

theorem provision_valid_roundtrip_witness :
    ("0004A30B001C0530" : String).length = 16 ∧
    ("70B3D57ED0000000" : String).length = 16 ∧
    ("8AFE71A145B253E49C3031AD068277A1" : String).length = 32 ∧
    ("0004A30B001C0530" : String).data.all isHexDigit = true ∧
    ("70B3D57ED0000000" : String).data.all isHexDigit = true ∧
    ("8AFE71A145B253E49C3031AD068277A1" : String).data.all isHexDigit = true ∧
    ((provision initialState "0004A30B001C0530" "70B3D57ED0000000"
        "8AFE71A145B253E49C3031AD068277A1").1 = true ∧
      load (provision initialState "0004A30B001C0530" "70B3D57ED0000000"
          "8AFE71A145B253E49C3031AD068277A1").2 =
        some ⟨hexPairsToNats ("0004A30B001C0530" : String).data,
          hexPairsToNats ("70B3D57ED0000000" : String).data,
          hexPairsToNats ("8AFE71A145B253E49C3031AD068277A1" : String).data⟩) :=
  ⟨by decide, by decide, by decide, by decide, by decide, by decide,
    provision_valid_roundtrip initialState _ _ _ (by decide) (by decide) (by decide)
      (by decide) (by decide) (by decide)⟩

/-- C2: whenever at least one of the three input strings has the wrong
length or contains a non-hex character, `provision` returns false, the
Credential Store contents are unchanged (no partial write), and the MAC
engine is never contacted (the whole state, its radio trace included, is
unchanged). -/
theorem provision_invalid_no_write (s : DeviceState) (devEui appEui appKey : String)
    (h : (validEuiString devEui && validEuiString appEui && validKeyString appKey) = false) :
    (provision s devEui appEui appKey).1 = false ∧
    (provision s devEui appEui appKey).2 = s ∧
    (provision s devEui appEui appKey).2.storedCreds = s.storedCreds ∧
    (provision s devEui appEui appKey).2.macTrace = s.macTrace := by
  have main : provision s devEui appEui appKey = (false, s) := by
    by_cases h1 : validEuiString devEui = true
    · by_cases h2 : validEuiString appEui = true
      · have h3 : validKeyString appKey = false := by
          simp only [h1, h2, Bool.true_and] at h
          exact h
        simp [provision, decodeEui_of_valid devEui h1, decodeEui_of_valid appEui h2,
          decodeKey_none appKey h3]
      · have h2f : validEuiString appEui = false := by simpa using h2
        cases hz : decodeEui devEui <;>
          simp [provision, hz, decodeEui_none appEui h2f]
    · have h1f : validEuiString devEui = false := by simpa using h1
      cases hy : decodeEui appEui <;> cases hx : decodeKey appKey <;>
        simp [provision, hy, hx, decodeEui_none devEui h1f]
  refine ⟨?_, ?_, ?_, ?_⟩ <;> simp [main]

theorem provision_invalid_no_write_witness :
    (validEuiString "0004A30B001C053G" && validEuiString "70B3D57ED0000000" &&
      validKeyString "8AFE71A145B253E49C3031AD068277A1") = false ∧
    ((provision initialState "0004A30B001C053G" "70B3D57ED0000000"
        "8AFE71A145B253E49C3031AD068277A1").1 = false ∧
      (provision initialState "0004A30B001C053G" "70B3D57ED0000000"
          "8AFE71A145B253E49C3031AD068277A1").2 = initialState ∧
      (provision initialState "0004A30B001C053G" "70B3D57ED0000000"
          "8AFE71A145B253E49C3031AD068277A1").2.storedCreds = initialState.storedCreds ∧
      (provision initialState "0004A30B001C053G" "70B3D57ED0000000"
          "8AFE71A145B253E49C3031AD068277A1").2.macTrace = initialState.macTrace) :=
  ⟨by decide, provision_invalid_no_write initialState _ _ _ (by decide)⟩

/-- C3: `provisionWithMAC` derives the 8-byte device EUI
m0 m1 m2 FF FE m3 m4 m5 from the 6-byte hardware MAC address
m0 m1 m2 m3 m4 m5; in particular MAC A0:B1:C2:01:02:03 yields devEui
bytes A0 B1 C2 FF FE 01 02 03; and it then behaves exactly as
`provision` called with that derived EUI (written as hex). -/
theorem provisionWithMAC_derives_eui (s : DeviceState) (m0 m1 m2 m3 m4 m5 : Nat)
    (appEui appKey : String)
    (h0 : m0 < 256) (h1 : m1 < 256) (h2 : m2 < 256)
    (h3 : m3 < 256) (h4 : m4 < 256) (h5 : m5 < 256) :
    euiFromMac [m0, m1, m2, m3, m4, m5] = [m0, m1, m2, 0xff, 0xfe, m3, m4, m5] ∧
    euiFromMac [0xA0, 0xB1, 0xC2, 0x01, 0x02, 0x03] =
      [0xA0, 0xB1, 0xC2, 0xFF, 0xFE, 0x01, 0x02, 0x03] ∧
    provisionWithMAC s [m0, m1, m2, m3, m4, m5] appEui appKey =
      provision s (hexEncode (euiFromMac [m0, m1, m2, m3, m4, m5])) appEui appKey := by
  refine ⟨rfl, rfl, ?_⟩
  have hlen : (euiFromMac [m0, m1, m2, m3, m4, m5]).length = 8 := rfl
  have hlt : ∀ b ∈ euiFromMac [m0, m1, m2, m3, m4, m5], b < 256 := by
    intro b hb
    simp only [euiFromMac, List.take, List.drop, List.cons_append, List.nil_append,
      List.mem_cons, List.not_mem_nil, or_false] at hb
    rcases hb with rfl | rfl | rfl | rfl | rfl | rfl | rfl | rfl <;> omega
  have hdec := decodeEui_hexEncode _ hlen hlt
  cases hy : decodeEui appEui <;> cases hx : decodeKey appKey <;>
    simp [provisionWithMAC, provision, hdec, hy, hx]

theorem provisionWithMAC_derives_eui_witness :
    0xA0 < 256 ∧ 0xB1 < 256 ∧ 0xC2 < 256 ∧ 0x01 < 256 ∧ 0x02 < 256 ∧ 0x03 < 256 ∧
    (euiFromMac [0xA0, 0xB1, 0xC2, 0x01, 0x02, 0x03] =
        [0xA0, 0xB1, 0xC2, 0xff, 0xfe, 0x01, 0x02, 0x03] ∧
      euiFromMac [0xA0, 0xB1, 0xC2, 0x01, 0x02, 0x03] =
        [0xA0, 0xB1, 0xC2, 0xFF, 0xFE, 0x01, 0x02, 0x03] ∧
      provisionWithMAC initialState [0xA0, 0xB1, 0xC2, 0x01, 0x02, 0x03]
          "70B3D57ED0000000" "8AFE71A145B253E49C3031AD068277A1" =
        provision initialState
          (hexEncode (euiFromMac [0xA0, 0xB1, 0xC2, 0x01, 0x02, 0x03]))
          "70B3D57ED0000000" "8AFE71A145B253E49C3031AD068277A1") :=
  ⟨by decide, by decide, by decide, by decide, by decide, by decide,
    provisionWithMAC_derives_eui initialState 0xA0 0xB1 0xC2 0x01 0x02 0x03
      "70B3D57ED0000000" "8AFE71A145B253E49C3031AD068277A1"
      (by decide) (by decide) (by decide) (by decide) (by decide) (by decide)⟩

/-- C4: in every state where JoinState is already Joined, the
no-argument `join` returns true, performs no state transition and never
invokes the MAC engine: the whole state, its radio trace included, is
returned unchanged. -/
theorem join_when_joined_noop (s : DeviceState) (outcome : MacJoinOutcome)
    (h : s.joinState = JoinState.Joined) :
    join s outcome = (true, s) := by
  simp [join, h]

theorem join_when_joined_noop_witness :
    ({ initialState with joinState := JoinState.Joined } : DeviceState).joinState =
      JoinState.Joined ∧
    join { initialState with joinState := JoinState.Joined } MacJoinOutcome.failure =
      (true, { initialState with joinState := JoinState.Joined }) :=
  ⟨rfl, join_when_joined_noop { initialState with joinState := JoinState.Joined }
    MacJoinOutcome.failure rfl⟩

/-- C5: when the Credential Store is incomplete and JoinState is not
Joined, the no-argument `join` returns false immediately with the state
(radio trace included) unchanged; more generally a failed join leaves
the state either untouched or with JoinState at Provisioned, and the
stored credentials always survive a join call, so they remain valid for
a retry. -/
theorem join_failure_semantics (s : DeviceState) (outcome : MacJoinOutcome) :
    (credStoreIsComplete s = false → s.joinState ≠ JoinState.Joined →
      join s outcome = (false, s)) ∧
    ((join s outcome).1 = false →
      ((join s outcome).2 = s ∨ (join s outcome).2.joinState = JoinState.Provisioned)) ∧
    (join s outcome).2.storedCreds = s.storedCreds := by
  by_cases hj : s.joinState = JoinState.Joined
  · refine ⟨fun _ hne => absurd hj hne, ?_, ?_⟩ <;> simp [join, hj]
  · cases hload : load s with
    | none =>
      refine ⟨fun _ _ => ?_, ?_, ?_⟩ <;> simp [join, hj, hload]
    | some c =>
      have hcomplete : credStoreIsComplete s = true := by
        simp [credStoreIsComplete, hload]
      refine ⟨fun hfalse _ => ?_, ?_, ?_⟩
      · rw [hcomplete] at hfalse; exact absurd hfalse (by simp)
      · cases outcome <;> simp [join, hj, hload, joinCore]
      · cases outcome <;> simp [join, hj, hload, joinCore]

theorem join_failure_semantics_witness :
    credStoreIsComplete initialState = false ∧
    initialState.joinState ≠ JoinState.Joined ∧
    join initialState MacJoinOutcome.failure = (false, initialState) :=
  ⟨by decide, by decide,
    (join_failure_semantics initialState MacJoinOutcome.failure).1 (by decide) (by decide)⟩

/-- C6: for every payload, port and confirm flag, `transmitMessage`
called in any state where JoinState is not Joined returns the
unexpected-error code (whose numeric value is -10, as declared in the
header) with the state, its radio trace included, unchanged. -/
theorem transmitMessage_not_joined (s : DeviceState) (outcome : MacSendOutcome)
    (payload : List Nat) (port : Nat) (confirm : Bool)
    (h : s.joinState ≠ JoinState.Joined) :
    transmitMessage s outcome payload port confirm =
      (TTNResponseCode.kTTNErrorUnexpected, [], s) ∧
    TTNResponseCode.toInt TTNResponseCode.kTTNErrorUnexpected = -10 := by
  refine ⟨?_, rfl⟩
  simp [transmitMessage, h]

theorem transmitMessage_not_joined_witness :
    initialState.joinState ≠ JoinState.Joined ∧
    (transmitMessage initialState (MacSendOutcome.delivered none) [1, 2, 3] 1 false =
        (TTNResponseCode.kTTNErrorUnexpected, [], initialState) ∧
      TTNResponseCode.toInt TTNResponseCode.kTTNErrorUnexpected = -10) :=
  ⟨by decide, transmitMessage_not_joined initialState (MacSendOutcome.delivered none)
    [1, 2, 3] 1 false (by decide)⟩

/-- C7: `enableChannel` returns true exactly when the channel flipped
from disabled to enabled (after the call it is always enabled), and
`disableChannel` returns true exactly when it flipped from enabled to
disabled; hence a repeated call returns false and an interleaved
opposite call makes the next call return true again, as in the
enableChannel 5 / enableChannel 5 example on a fresh device. -/
theorem channel_edge_semantics (s : DeviceState) (ch : Nat) :
    (enableChannel s ch).1 = !(s.channels ch) ∧
    (enableChannel s ch).2.channels ch = true ∧
    (disableChannel s ch).1 = s.channels ch ∧
    (disableChannel s ch).2.channels ch = false ∧
    (enableChannel (enableChannel s ch).2 ch).1 = false ∧
    (disableChannel (disableChannel s ch).2 ch).1 = false ∧
    (enableChannel (disableChannel (enableChannel s ch).2 ch).2 ch).1 = true ∧
    (disableChannel (enableChannel (disableChannel s ch).2 ch).2 ch).1 = true ∧
    (enableChannel initialState 5).1 = true ∧
    (enableChannel (enableChannel initialState 5).2 5).1 = false ∧
    (enableChannel (disableChannel (enableChannel initialState 5).2 5).2 5).1 = true := by
  refine ⟨?_, ?_, ?_, ?_, ?_, ?_, ?_, ?_, rfl, rfl, rfl⟩ <;>
    cases hc : s.channels ch <;> simp [enableChannel, disableChannel, hc]

/-- C8: after `selectSubBand band`, whatever the prior channel state,
exactly the 8 channels of that sub-band (the channels ch with
ch / 8 = band, i.e. 8*band ≤ ch < 8*band + 8) are enabled and every
other channel is disabled; the call reports success, and it is
performed as disable-all-sub-bands followed by enable-one. -/
theorem selectSubBand_exact (s : DeviceState) (band ch : Nat) :
    (selectSubBand s band).2.channels ch = decide (ch / 8 = band) ∧
    (selectSubBand s band).2.channels ch = decide (8 * band ≤ ch ∧ ch < 8 * band + 8) ∧
    (selectSubBand s band).1 = true ∧
    selectSubBand s band = enableSubBand { s with channels := fun _ => false } band := by
  have hfirst : (selectSubBand s band).2.channels ch = decide (ch / 8 = band) := by
    by_cases h : ch / 8 = band <;> simp [selectSubBand, enableSubBand, h]
  refine ⟨hfirst, ?_, ?_, rfl⟩
  · rw [hfirst]
    have : (ch / 8 = band) ↔ (8 * band ≤ ch ∧ ch < 8 * band + 8) := by omega
    simp only [decide_eq_decide]
    exact this
  · simp only [selectSubBand, enableSubBand, subBandChannels]
    simp
    exact ⟨0, by omega⟩

/-- C9: for a receive window opened by `transmitMessage` or `poll` in
the Joined state with a callback registered, if the MAC engine delivered
a downlink then that callback is invoked exactly once during the call
(before it returns), with exactly the delivered payload bytes (hence
the delivered length) and port; if no downlink arrived, the callback is
invoked zero times. -/
theorem downlink_callback_exact (s : DeviceState) (cb : Nat) (payload : List Nat)
    (port : Nat) (confirm : Bool) (msg : ReceiveMessage)
    (hj : s.joinState = JoinState.Joined) (hcb : s.messageCallback = some cb) :
    (transmitMessage s (MacSendOutcome.delivered (some msg)) payload port confirm).2.1 =
      [(cb, msg)] ∧
    (poll s (MacSendOutcome.delivered (some msg))).2.1 = [(cb, msg)] ∧
    (transmitMessage s (MacSendOutcome.delivered none) payload port confirm).2.1 = [] ∧
    (poll s (MacSendOutcome.delivered none)).2.1 = [] ∧
    (transmitMessage s MacSendOutcome.sendFailed payload port confirm).2.1 = [] ∧
    (poll s MacSendOutcome.sendFailed).2.1 = [] ∧
    (transmitMessage s MacSendOutcome.engineError payload port confirm).2.1 = [] ∧
    (poll s MacSendOutcome.engineError).2.1 = [] := by
  refine ⟨?_, ?_, ?_, ?_, ?_, ?_, ?_, ?_⟩ <;>
    simp [transmitMessage, poll, hj, hcb, dispatchDownlink]

theorem downlink_callback_exact_witness :
    ({ initialState with joinState := JoinState.Joined, messageCallback := some 7 } :
        DeviceState).joinState = JoinState.Joined ∧
    ({ initialState with joinState := JoinState.Joined, messageCallback := some 7 } :
        DeviceState).messageCallback = some 7 ∧
    ((transmitMessage
        { initialState with joinState := JoinState.Joined, messageCallback := some 7 }
        (MacSendOutcome.delivered (some ⟨[10, 20], 2⟩)) [1, 2, 3] 1 false).2.1 =
      [(7, ⟨[10, 20], 2⟩)] ∧
      (poll { initialState with joinState := JoinState.Joined, messageCallback := some 7 }
        (MacSendOutcome.delivered (some ⟨[10, 20], 2⟩))).2.1 = [(7, ⟨[10, 20], 2⟩)] ∧
      (transmitMessage
        { initialState with joinState := JoinState.Joined, messageCallback := some 7 }
        (MacSendOutcome.delivered none) [1, 2, 3] 1 false).2.1 = [] ∧
      (poll { initialState with joinState := JoinState.Joined, messageCallback := some 7 }
        (MacSendOutcome.delivered none)).2.1 = [] ∧
      (transmitMessage
        { initialState with joinState := JoinState.Joined, messageCallback := some 7 }
        MacSendOutcome.sendFailed [1, 2, 3] 1 false).2.1 = [] ∧
      (poll { initialState with joinState := JoinState.Joined, messageCallback := some 7 }
        MacSendOutcome.sendFailed).2.1 = [] ∧
      (transmitMessage
        { initialState with joinState := JoinState.Joined, messageCallback := some 7 }
        MacSendOutcome.engineError [1, 2, 3] 1 false).2.1 = [] ∧
      (poll { initialState with joinState := JoinState.Joined, messageCallback := some 7 }
        MacSendOutcome.engineError).2.1 = []) :=
  ⟨rfl, rfl, downlink_callback_exact
    { initialState with joinState := JoinState.Joined, messageCallback := some 7 }
    7 [1, 2, 3] 1 false ⟨[10, 20], 2⟩ rfl rfl⟩

/-- C10: after a three-argument `joinWithKeys` call with valid hex
strings, `isProvisioned` reports true even though the Credential Store
was not written (its contents are unchanged, and if it was empty before
the call, `load` still returns absent), and `waitForProvisioning`
returns immediately in that situation. -/
theorem joinWithKeys_provisions_in_memory (s : DeviceState)
    (devEui appEui appKey : String) (outcome : MacJoinOutcome)
    (hd : devEui.length = 16) (ha : appEui.length = 16) (hk : appKey.length = 32)
    (hdh : devEui.data.all isHexDigit = true)
    (hah : appEui.data.all isHexDigit = true)
    (hkh : appKey.data.all isHexDigit = true) :
    isProvisioned (joinWithKeys s devEui appEui appKey outcome).2 = true ∧
    (joinWithKeys s devEui appEui appKey outcome).2.storedCreds = s.storedCreds ∧
    (s.storedCreds = none → load (joinWithKeys s devEui appEui appKey outcome).2 = none) ∧
    waitForProvisioningReturnsImmediately
      (joinWithKeys s devEui appEui appKey outcome).2 = true := by
  have hde := decodeEui_ok devEui hd hdh
  have hae := decodeEui_ok appEui ha hah
  have hke := decodeKey_ok appKey hk hkh
  have hv : DeviceCredentials.valid
      ⟨hexPairsToNats devEui.data, hexPairsToNats appEui.data,
        hexPairsToNats appKey.data⟩ = true := by
    simp [DeviceCredentials.valid, decodedEui_length devEui hd,
      decodedEui_length appEui ha, decodedKey_length appKey hk]
  have hstate : (joinWithKeys s devEui appEui appKey outcome).2.storedCreds = s.storedCreds ∧
      (joinWithKeys s devEui appEui appKey outcome).2.adhocCreds =
        some ⟨hexPairsToNats devEui.data, hexPairsToNats appEui.data,
          hexPairsToNats appKey.data⟩ := by
    by_cases hj : s.joinState = JoinState.Joined <;> cases outcome <;>
      simp [joinWithKeys, hde, hae, hke, hj, joinCore]
  refine ⟨?_, hstate.1, fun hnone => ?_, ?_⟩
  · simp [isProvisioned, hstate.2, hv]
  · simp [load, hstate.1, hnone]
  · simp [waitForProvisioningReturnsImmediately, isProvisioned, hstate.2, hv]

theorem joinWithKeys_provisions_in_memory_witness :
    ("0004A30B001C0530" : String).length = 16 ∧
    ("70B3D57ED0000000" : String).length = 16 ∧
    ("8AFE71A145B253E49C3031AD068277A1" : String).length = 32 ∧
    ("0004A30B001C0530" : String).data.all isHexDigit = true ∧
    ("70B3D57ED0000000" : String).data.all isHexDigit = true ∧
    ("8AFE71A145B253E49C3031AD068277A1" : String).data.all isHexDigit = true ∧
    (isProvisioned (joinWithKeys initialState "0004A30B001C0530" "70B3D57ED0000000"
        "8AFE71A145B253E49C3031AD068277A1" MacJoinOutcome.success).2 = true ∧
      (joinWithKeys initialState "0004A30B001C0530" "70B3D57ED0000000"
          "8AFE71A145B253E49C3031AD068277A1" MacJoinOutcome.success).2.storedCreds =
        initialState.storedCreds ∧
      (initialState.storedCreds = none →
        load (joinWithKeys initialState "0004A30B001C0530" "70B3D57ED0000000"
            "8AFE71A145B253E49C3031AD068277A1" MacJoinOutcome.success).2 = none) ∧
      waitForProvisioningReturnsImmediately
        (joinWithKeys initialState "0004A30B001C0530" "70B3D57ED0000000"
          "8AFE71A145B253E49C3031AD068277A1" MacJoinOutcome.success).2 = true) :=
  ⟨by decide, by decide, by decide, by decide, by decide, by decide,
    joinWithKeys_provisions_in_memory initialState _ _ _ MacJoinOutcome.success
      (by decide) (by decide) (by decide) (by decide) (by decide) (by decide)⟩

end TTN
